import Mathlib

/-!
Shallow embedding of the PatentScope scraping engine
(patent-scope-marcos repository) and proofs about its behaviour.

The definitions below are translated from the Python sources:
  app/scraper.py   (PatentScopeScraper: query building, fetch retry, search)
  app/parser.py    (PatentScopeParser: selector cascades, total count)
  patentscope_scraper.py (RateLimiter, tenacity-wrapped requests, crawl loop)
  busca_completa_patentscope.py / patentscope_detalhes.py (deduplication)
-/

namespace PatentScope

/-! ### Python string primitives used by the source -/

/-- Characters stripped by Python `str.strip()` with no argument. -/
def pyIsSpace (c : Char) : Bool :=
  c = ' ' || c = '\t' || c = '\n' || c = '\x0d' || c = '\x0b' || c = '\x0c'

/-- Python `str.strip()`: drop leading and trailing whitespace. -/
def pyStripList (l : List Char) : List Char :=
  ((l.dropWhile pyIsSpace).reverse.dropWhile pyIsSpace).reverse

/-- Python `str.strip()` lifted to `String`. -/
def pyStrip (s : String) : String :=
  ⟨pyStripList s.data⟩

/-! ### QueryBuilder — `app/scraper.py`, `_build_molecule_query` (lines 99-141) -/

/-- Alphabet used by the formula heuristic: the literal
`'0123456789CHONPS()[]+-='` of scraper.py line 114. -/
def formulaAlphabet : List Char := "0123456789CHONPS()[]+-=".data

/-- Test of scraper.py line 114: every character of the stripped molecule,
after `replace(' ', '')`, lies in the formula alphabet. -/
def isFormulaLike (m : List Char) : Bool :=
  (m.filter (fun c => c ≠ ' ')).all (fun c => formulaAlphabet.contains c)

/-- Test of scraper.py line 119: the molecule contains one of `@`, `/`, `\`. -/
def hasSmilesChar (m : List Char) : Bool :=
  m.any (fun c => c = '@' || c = '/' || c = '\\')

/-- Classification implicit in the if/elif/else chain of
`_build_molecule_query` (scraper.py lines 113-127). -/
inductive MolClass
  | Formula
  | Smiles
  | Name
  deriving DecidableEq, Repr

/-- Discriminator of `_build_molecule_query`: the molecule is first
stripped (line 111), then classified by lines 114-127. -/
def classifyMolecule (molecule : String) : MolClass :=
  let m := pyStripList molecule.data
  if isFormulaLike m then .Formula
  else if hasSmilesChar m then .Smiles
  else .Name

/-- Dead local list of scraper.py lines 130-136 (never used by the query). -/
def chemistry_terms : List String :=
  ["compound", "molecule", "chemical", "synthesis", "composition"]

/-- Translation of `_build_molecule_query` (scraper.py lines 99-141).
The `search_type` parameter is accepted and never read, as in the source. -/
def build_molecule_query (molecule : String) (search_type : String) : String :=
  let m := pyStrip molecule
  let fieldAndQuery : String × String :=
    match classifyMolecule molecule with
    | .Formula => ("EN_AB", "\"" ++ m ++ "\"")
    | .Smiles => ("EN_AB", "\"" ++ m ++ "\"")
    | .Name => ("EN_ALL", m)
  fieldAndQuery.1 ++ ":(" ++ fieldAndQuery.2 ++ ")"

/-! ### RateLimiter — `patentscope_scraper.py` lines 41-81.
Delays are modelled over `ℚ`; the float literal `0.1` of line 62 is the
rational `1/10`.  The wall-clock bookkeeping of `wait()`
(`last_request_time`, the actual sleep) is not modelled; `computeDelay`
is the `delay` value those lines compute.  The non-adaptive branch draws
`random.uniform(min_delay, max_delay)`, passed in as `randomSample`. -/

structure RateLimiter where
  min_delay : ℚ
  max_delay : ℚ
  adaptive : Bool
  consecutive_errors : ℕ
  success_streak : ℕ
  deriving Repr, DecidableEq

/-- Fresh limiter as built by `RateLimiter.__init__` (lines 44-50). -/
def RateLimiter.init (min_delay max_delay : ℚ) (adaptive : Bool) : RateLimiter :=
  { min_delay := min_delay, max_delay := max_delay, adaptive := adaptive,
    consecutive_errors := 0, success_streak := 0 }

/-- Delay computed by `RateLimiter.wait` (lines 56-64). -/
def RateLimiter.computeDelay (rl : RateLimiter) (randomSample : ℚ) : ℚ :=
  if rl.adaptive then
    if rl.consecutive_errors > 0 then
      min (rl.min_delay * 2 ^ rl.consecutive_errors) rl.max_delay
    else
      max rl.min_delay (rl.max_delay / (1 + (rl.success_streak : ℚ) * (1 / 10)))
  else
    randomSample

/-- Translation of `RateLimiter.record_success` (lines 73-76). -/
def RateLimiter.record_success (rl : RateLimiter) : RateLimiter :=
  { rl with consecutive_errors := 0, success_streak := rl.success_streak + 1 }

/-- Translation of `RateLimiter.record_error` (lines 78-81). -/
def RateLimiter.record_error (rl : RateLimiter) : RateLimiter :=
  { rl with consecutive_errors := rl.consecutive_errors + 1, success_streak := 0 }

/-! ### FetchClient — `app/scraper.py`, `_fetch_with_retry` (lines 46-97)
and `patentscope_scraper.py`, `_make_request` (lines 426-447). -/

/-- Outcome of one HTTP attempt as seen by the retry loops: either a
response with a status code and body, or a raised timeout / transport
error. -/
inductive AttemptOutcome
  | response (status : ℕ) (body : String)
  | timeoutRaised
  | transportError (msg : String)
  deriving Repr, DecidableEq

/-- Result of `_fetch_with_retry`: the body on HTTP 200, or one of the
three `raise Exception(...)` exits (timeout message, HTTP-error message,
or the final retries-exhausted `Falha ao buscar ...` message). -/
inductive FetchResult
  | ok (body : String)
  | timeoutFailure
  | httpFailure
  | retriesExhausted
  deriving Repr, DecidableEq

/-- Attempt loop of `_fetch_with_retry` (scraper.py lines 63-95).
`remaining` counts attempts left; `i` is the index into the outcome
sequence.  Status 200 returns the body; 429 and `>= 500` retry; other
statuses below 400 make `raise_for_status` a no-op and the loop simply
moves on; statuses in `[400, 500)` other than 429 raise an
`httpx.HTTPError`, re-raised as `Erro HTTP` on the last attempt;
timeouts and transport errors likewise retry until the last attempt.
When the loop ends with no success the function raises the
`Falha ao buscar ... após N tentativas` exception. -/
def fetchAttemptLoop (outcomes : ℕ → AttemptOutcome) : ℕ → ℕ → FetchResult
  | 0, _ => .retriesExhausted
  | remaining + 1, i =>
    match outcomes i with
    | .response status body =>
      if status = 200 then .ok body
      else if status = 429 then fetchAttemptLoop outcomes remaining (i + 1)
      else if status ≥ 500 then fetchAttemptLoop outcomes remaining (i + 1)
      else if status < 400 then fetchAttemptLoop outcomes remaining (i + 1)
      else if remaining = 0 then .httpFailure
      else fetchAttemptLoop outcomes remaining (i + 1)
    | .timeoutRaised =>
      if remaining = 0 then .timeoutFailure
      else fetchAttemptLoop outcomes remaining (i + 1)
    | .transportError _ =>
      if remaining = 0 then .httpFailure
      else fetchAttemptLoop outcomes remaining (i + 1)

/-- Translation of `_fetch_with_retry` (scraper.py lines 46-97), with the
successive network outcomes supplied as a sequence. -/
def fetch_with_retry (outcomes : ℕ → AttemptOutcome) (max_retries : ℕ) : FetchResult :=
  fetchAttemptLoop outcomes max_retries 0

/-- State threaded through `_make_request`: the rate limiter plus a count
of how many times `record_success` was invoked. -/
structure MakeRequestState where
  limiter : RateLimiter
  successCalls : ℕ
  deriving Repr, DecidableEq

/-- Attempt loop of the tenacity-wrapped `_make_request`
(patentscope_scraper.py lines 426-447): `stop_after_attempt(3)` with
`retry_if_exception_type(RequestException)`.  Each attempt performs the
request; `raise_for_status` raises for statuses `>= 400`, on which
`record_error` runs and tenacity retries; otherwise `record_success`
runs and the response is returned.  Raised timeouts and transport
errors are `RequestException`s and also retry.  When all attempts fail
the call raises tenacity's retry error (`none` here). -/
def makeRequestLoop (outcomes : ℕ → AttemptOutcome) :
    ℕ → ℕ → MakeRequestState → Option (ℕ × String) × MakeRequestState
  | 0, _, st => (none, st)
  | remaining + 1, i, st =>
    match outcomes i with
    | .response status body =>
      if status < 400 then
        (some (status, body),
         { limiter := st.limiter.record_success, successCalls := st.successCalls + 1 })
      else
        makeRequestLoop outcomes remaining (i + 1)
          { st with limiter := st.limiter.record_error }
    | .timeoutRaised =>
      makeRequestLoop outcomes remaining (i + 1)
        { st with limiter := st.limiter.record_error }
    | .transportError _ =>
      makeRequestLoop outcomes remaining (i + 1)
        { st with limiter := st.limiter.record_error }

/-- Translation of `_make_request` (patentscope_scraper.py lines
426-447) under tenacity `stop_after_attempt(3)`. -/
def make_request (outcomes : ℕ → AttemptOutcome) (rl : RateLimiter) :
    Option (ℕ × String) × MakeRequestState :=
  makeRequestLoop outcomes 3 0 { limiter := rl, successCalls := 0 }

/-! ### FieldExtractor — `app/parser.py`.
A rendered document is modelled abstractly: CSS and XPath selector
strings are opaque queries answered by the document, as they are for
parsel.  `css` returns the list of text results of a query (`getall`);
`.get()` is its head.  Python truthiness drives the cascades: `None`
and the empty string are falsy. -/

/-- One result item (an element of the result set). -/
structure ItemDoc where
  css : String → List String
  xpath : String → List String

/-- A whole results page. -/
structure HtmlDoc where
  items : String → List ItemDoc
  css : String → List String
  allTexts : List String

/-- Python truthiness of an optional string. -/
def truthyStr : Option String → Bool
  | none => false
  | some s => s ≠ ""

/-- Collapse a falsy value (absent or empty) to `none`. -/
def truthyOpt : Option String → Option String
  | none => none
  | some s => if s = "" then none else some s

/-- Result-container selectors of parser.py lines 25-34. -/
def result_selectors : List String :=
  [".result-item", ".patent-result", "tr.data-row", "div[class*=\"result\"]",
   "tr[class*=\"row\"]", "div[id*=\"result\"]", ".resultSet > div",
   "table.resultTable tr"]

/-- Publication-number selectors of parser.py lines 47-54. -/
def pub_selectors : List String :=
  [".publication-number::text", ".pub-number::text", "a[href*=\"docId\"]::text",
   ".docId::text", "td.number::text", "span[class*=\"number\"]::text"]

/-- XPath fallback of parser.py line 64. -/
def pubXpathFallback : String :=
  ".//text()[contains(., \"WO\") or contains(., \"US\") or contains(., \"EP\")]"

/-- Title selectors of parser.py lines 81-88. -/
def title_selectors : List String :=
  [".title::text", "h3::text", ".patent-title::text", "a[href*=\"docId\"]::text",
   "td.title::text", "div[class*=\"title\"]::text"]

/-- Abstract selectors of parser.py lines 100-105. -/
def abstract_selectors : List String :=
  [".abstract::text", ".summary::text", "div[class*=\"abstract\"]::text",
   "td.abstract::text"]

/-- Applicant selectors of parser.py lines 117-122. -/
def applicant_selectors : List String :=
  [".applicant::text", ".applicant-name::text", "div[class*=\"applicant\"]::text",
   "td.applicant::text"]

/-- Inventor selectors of parser.py lines 133-137. -/
def inventor_selectors : List String :=
  [".inventor::text", ".inventor-name::text", "div[class*=\"inventor\"]::text"]

/-- Date selectors of parser.py lines 148-153. -/
def date_selectors : List String :=
  [".publication-date::text", ".pub-date::text", "td.date::text",
   "span[class*=\"date\"]::text"]

/-- IPC selectors of parser.py lines 165-169. -/
def ipc_selectors : List String :=
  [".ipc-code::text", ".ipc::text", "span[class*=\"ipc\"]::text"]

/-- Singular-field cascade: `for sel: v = item.css(sel).get(); if v: break`
followed by a truthiness test — the first truthy result wins. -/
def firstTruthy (item : ItemDoc) : List String → Option String
  | [] => none
  | sel :: rest =>
    match (item.css sel).head? with
    | some t => if t = "" then firstTruthy item rest else some t
    | none => firstTruthy item rest

/-- Multi-valued cascade: `getall` results of every selector are
concatenated (`extend`) in cascade order. -/
def gatherAll (item : ItemDoc) (sels : List String) : List String :=
  sels.foldl (fun acc sel => acc ++ item.css sel) []

/-- Comprehension `[a.strip() for a in l if a.strip()]`. -/
def cleanList (l : List String) : List String :=
  (l.map pyStrip).filter (fun s => s ≠ "")

/-- Scan of `re.search(r'docId=([^&\s]+)', href)` over the characters of
the href: at each position, if the literal `docId=` matches and at least
one following character is neither `&` nor whitespace, the (greedy)
captured group is returned; otherwise scanning resumes one character to
the right, as `re.search` does. -/
def searchDocId : List Char → Option String
  | [] => none
  | c :: rest =>
    if List.isPrefixOf "docId=".data (c :: rest) then
      let tok := (rest.drop 5).takeWhile (fun d => d ≠ '&' && pyIsSpace d = false)
      if tok.isEmpty then searchDocId rest else some ⟨tok⟩
    else searchDocId rest

/-- Partial record as assembled by `parse_search_results` for one item
(parser.py lines 42-181); absent dict keys are `none`.  The `url` key is
added later by the scraper. -/
structure RawResult where
  publication_number : Option String
  patent_id : Option String
  title : Option String
  abstract : Option String
  applicants : List String
  inventors : List String
  publication_date : Option String
  ipc_codes : List String
  url : Option String
  deriving Repr, DecidableEq

/-- Field extraction for one result item, following parser.py lines
42-177 in source order: publication number (cascade, then XPath
fallback, stored stripped when truthy), `docId` extraction from the
first `a[href*="docId"]` href, defaulting of `patent_id` to the
publication number when the key is present, then title, abstract,
applicants, inventors, date and IPC codes. -/
def buildResult (item : ItemDoc) : RawResult :=
  let pubRaw : Option String :=
    match firstTruthy item pub_selectors with
    | some t => some t
    | none => (item.xpath pubXpathFallback).head?
  let publication_number := (truthyOpt pubRaw).map pyStrip
  let hrefOpt := truthyOpt ((item.css "a[href*=\"docId\"]::attr(href)").head?)
  let docId : Option String :=
    match hrefOpt with
    | some h => searchDocId h.data
    | none => none
  let patent_id : Option String :=
    match docId with
    | some d => some d
    | none => publication_number
  let abstract_parts := gatherAll item abstract_selectors
  { publication_number := publication_number
    patent_id := patent_id
    title := (firstTruthy item title_selectors).map pyStrip
    abstract :=
      if abstract_parts.isEmpty then none
      else some (pyStrip (String.intercalate " " abstract_parts))
    applicants := cleanList (gatherAll item applicant_selectors)
    inventors := cleanList (gatherAll item inventor_selectors)
    publication_date := (firstTruthy item date_selectors).map pyStrip
    ipc_codes := cleanList (gatherAll item ipc_selectors)
    url := none }

/-- Retention test of parser.py line 180:
`if result.get('patent_id') or result.get('publication_number')`. -/
def retainRecord (r : RawResult) : Bool :=
  truthyStr r.patent_id || truthyStr r.publication_number

/-- Container discovery of parser.py lines 36-40: the first container
selector matching one or more elements supplies the result set. -/
def selectItems (d : HtmlDoc) : List String → List ItemDoc
  | [] => []
  | sel :: rest =>
    let its := d.items sel
    if its.isEmpty then selectItems d rest else its

/-- Translation of `parse_search_results` (parser.py lines 10-188). -/
def parse_search_results (d : HtmlDoc) : List RawResult :=
  ((selectItems d result_selectors).map buildResult).filter retainRecord

/-! ### Total-count extraction — `app/parser.py`, `extract_total_results`
(lines 190-230). -/

/-- Total-count selectors of parser.py lines 204-211. -/
def total_selectors : List String :=
  [".total-results::text", ".result-count::text", "#totalResults::text",
   ".results-info::text", "span[class*=\"total\"]::text",
   "div[class*=\"count\"]::text"]

/-- Keywords of parser.py line 225. -/
def countKeywords : List String := ["total", "results", "found", "resultados"]

/-- Scanner for `re.findall(r'\d[\d,]*', text)`: maximal runs that start
with a digit and continue through digits and commas.  The accumulator
holds the reversed characters of the run in progress. -/
def numberRunsAux : List Char → Option (List Char) → List (List Char)
  | [], none => []
  | [], some cur => [cur.reverse]
  | c :: rest, none =>
    if c.isDigit then numberRunsAux rest (some [c]) else numberRunsAux rest none
  | c :: rest, some cur =>
    if c.isDigit || c = ',' then numberRunsAux rest (some (c :: cur))
    else cur.reverse :: numberRunsAux rest none

/-- All matches of `\d[\d,]*` in a text. -/
def numberRuns (text : String) : List (List Char) := numberRunsAux text.data none

/-- Evaluation of `int(n.replace(',', ''))` on one match. -/
def parseRun (run : List Char) : ℕ :=
  (run.filter (fun c => c ≠ ',')).foldl (fun a c => 10 * a + (c.toNat - 48)) 0

/-- Maximum of a list of naturals (Python `max` on a non-empty list). -/
def listMax (l : List ℕ) : ℕ := l.foldl max 0

/-- Integers parsed out of one candidate text. -/
def parsedNumbers (text : String) : List ℕ := (numberRuns text).map parseRun

/-- Lines 216-220 applied to one text: `if numbers: return max(...)`. -/
def extractNumbersMax (text : String) : Option ℕ :=
  if (parsedNumbers text).isEmpty then none else some (listMax (parsedNumbers text))

/-- Selector cascade of parser.py lines 213-220: for each selector, if
its text is truthy and yields at least one number, return the maximum;
otherwise fall through to the next selector. -/
def totalFromSelectors (d : HtmlDoc) : List String → Option ℕ
  | [] => none
  | sel :: rest =>
    match truthyOpt ((d.css sel).head?) with
    | some t =>
      match extractNumbersMax t with
      | some n => some n
      | none => totalFromSelectors d rest
    | none => totalFromSelectors d rest

/-- Substring test (Python `needle in hay`). -/
def listContainsSub (needle : List Char) : List Char → Bool
  | [] => needle.isEmpty
  | c :: rest => List.isPrefixOf needle (c :: rest) || listContainsSub needle rest

/-- Case-insensitive keyword containment of parser.py line 225. -/
def containsKeyword (t : String) : Bool :=
  countKeywords.any (fun kw => listContainsSub kw.data (t.data.map Char.toLower))

/-- Generic XPath fallback of parser.py lines 222-228: scan every text
node whose lowercase form mentions a keyword. -/
def totalFromTexts : List String → Option ℕ
  | [] => none
  | t :: rest =>
    if containsKeyword t then
      match extractNumbersMax t with
      | some n => some n
      | none => totalFromTexts rest
    else totalFromTexts rest

/-- Translation of `extract_total_results` (parser.py lines 190-230); the
final `return 0` of line 230 makes the result `0`, not an absent value. -/
def extract_total_results (d : HtmlDoc) : ℕ :=
  match totalFromSelectors d total_selectors with
  | some n => n
  | none =>
    match totalFromTexts d.allTexts with
    | some n => n
    | none => 0

/-! ### Deduplication — `busca_completa_patentscope.py` lines 117-124 and
`patentscope_detalhes.py`, `agrupar_por_publication_number`
(lines 527-548).  A record is modelled by its key and one payload field
standing for all remaining values. -/

/-- Patent record as far as deduplication observes it. -/
structure PatRec where
  publicationNumber : String
  title : String
  deriving Repr, DecidableEq

/-- Step of busca_completa lines 119-122:
`if pub_num and pub_num not in unique_patents: unique_patents[pub_num] = p`
on an insertion-ordered dictionary. -/
def uniqueInsert (d : List (String × PatRec)) (p : PatRec) : List (String × PatRec) :=
  if p.publicationNumber ≠ "" && ((d.map Prod.fst).contains p.publicationNumber) = false
  then d ++ [(p.publicationNumber, p)]
  else d

/-- Translation of the deduplication of busca_completa lines 117-124:
build the dictionary, then `list(unique_patents.values())`. -/
def dedupe_busca_completa (records : List PatRec) : List PatRec :=
  (records.foldl uniqueInsert []).map Prod.snd

/-- Python dictionary assignment `d[k] = v` on an insertion-ordered
association list: an existing key keeps its position and is overwritten;
a new key is appended. -/
def dictSet : List (String × PatRec) → String → PatRec → List (String × PatRec)
  | [], k, v => [(k, v)]
  | (k0, v0) :: rest, k, v =>
    if k0 = k then (k0, v) :: rest else (k0, v0) :: dictSet rest k v

/-- Translation of `agrupar_por_publication_number`
(patentscope_detalhes.py lines 527-548): records without a publication
number are dropped with a warning; the rest are assigned into the
dictionary, so a repeated key is overwritten by the later record. -/
def agrupar_por_publication_number (patentes : List PatRec) : List (String × PatRec) :=
  patentes.foldl
    (fun d p => if p.publicationNumber ≠ "" then dictSet d p.publicationNumber p else d)
    []

/-! ### PageCrawler — `patentscope_scraper.py`, `_buscar_com_selenium`
(lines 879-948).  Page contents and the presence of an enabled
next-page control are supplied as oracles; `pages i` is what
`_extrair_dados_patentes_selenium` yields on page `i`, and
`hasNextControl i` says whether a usable next button is found while on
page `i`. -/

/-- Pagination loop of lines 882-943: while fewer records than the limit
and below the page cap (10), look for a next-page control, fetch the
next page, stop on an empty page, otherwise accumulate and advance. -/
def crawlPagesLoop (pages : ℕ → List PatRec) (hasNextControl : ℕ → Bool)
    (limite max_paginas : ℕ) : ℕ → List PatRec → ℕ → List PatRec
  | 0, acc, _ => acc
  | fuel + 1, acc, pagina =>
    if acc.length < limite ∧ pagina < max_paginas then
      if hasNextControl pagina then
        let pageRecords := pages (pagina + 1)
        if pageRecords.length = 0 then acc
        else crawlPagesLoop pages hasNextControl limite max_paginas fuel
          (acc ++ pageRecords) (pagina + 1)
      else acc
    else acc

/-- Translation of the accumulation part of `_buscar_com_selenium`
(lines 872-948): page 1 is extracted before the loop, the loop caps at
`max_paginas = 10`, and the final list is truncated with
`patentes[:limite]` (line 946). -/
def buscar_com_selenium (pages : ℕ → List PatRec) (hasNextControl : ℕ → Bool)
    (limite : ℕ) : List PatRec :=
  (crawlPagesLoop pages hasNextControl limite 10 10 (pages 1) 1).take limite

/-! ### search_by_molecule — `app/scraper.py` (lines 143-235).
The fetch-and-parse body of the `try` block is abstracted as a fallible
oracle from the request parameters to the parsed results and the raw
extracted total; a raised exception is the `.error` case.  The
wall-clock fields `duration_ms` and `scraped_at` are not modelled. -/

/-- Request parameters of scraper.py lines 173-179. -/
structure SearchParams where
  query : String
  office : String
  sortOption : String
  maxRec : ℤ
  startRec : ℤ
  deriving Repr, DecidableEq

/-- Construction of the request of scraper.py lines 164-179. -/
def buildSearchParams (molecule search_type : String) (page page_size : ℤ) :
    SearchParams :=
  { query := build_molecule_query molecule search_type
    office := "all"
    sortOption := "Relevance"
    maxRec := page_size
    startRec := (page - 1) * page_size + 1 }

/-- Response dictionary of `search_by_molecule`; keys absent from the
error payload are `none`. -/
structure SearchResponse where
  status : String
  error : Option String
  results : List RawResult
  total_results : ℕ
  page : ℤ
  page_size : ℤ
  total_pages : ℤ
  has_next : Bool
  has_previous : Bool
  next_page : Option ℤ
  previous_page : Option ℤ
  query : String
  search_type : String
  deriving Repr, DecidableEq

/-- Translation of `search_by_molecule` (scraper.py lines 143-235).
`run` is the body of the `try` block up to parsing (fetch with retry,
`parse_search_results`, `extract_total_results`); any exception raised
there lands in the `except` branch of lines 222-235. -/
def search_by_molecule
    (run : SearchParams → Except String (List RawResult × ℕ))
    (molecule search_type : String) (page page_size : ℤ) : SearchResponse :=
  let params := buildSearchParams molecule search_type page page_size
  match run params with
  | .ok (results, total0) =>
    let total := if total0 = 0 ∧ ¬results.isEmpty then results.length else total0
    let total_pages := max 1 (((total : ℤ) + page_size - 1).fdiv page_size)
    let enriched := results.map (fun r =>
      { r with url := some (match r.patent_id with
          | some pid =>
            "https://patentscope.wipo.int/search/en/detail.jsf?docId=" ++ pid
          | none => "https://patentscope.wipo.int") })
    { status := "success", error := none, results := enriched,
      total_results := total, page := page, page_size := page_size,
      total_pages := total_pages,
      has_next := decide (page < total_pages),
      has_previous := decide (page > 1),
      next_page := if page < total_pages then some (page + 1) else none,
      previous_page := if page > 1 then some (page - 1) else none,
      query := molecule, search_type := search_type }
  | .error e =>
    { status := "error", error := some e, results := [], total_results := 0,
      page := page, page_size := page_size, total_pages := 0,
      has_next := false, has_previous := false,
      next_page := none, previous_page := none,
      query := molecule, search_type := search_type }

/-! ### Concrete example documents used as inputs in the theorems below -/

/-- Item whose two applicant selector classes both yield `"Acme"`. -/
def dupApplicantItem : ItemDoc :=
  { css := fun s =>
      if s = ".applicant::text" then ["Acme"]
      else if s = ".applicant-name::text" then ["Acme"]
      else []
    xpath := fun _ => [] }

/-- Item where only the second title selector matches and applicants come
from two different selector classes with one shared value. -/
def twoClassItem : ItemDoc :=
  { css := fun s =>
      if s = "h3::text" then ["Novel Compound"]
      else if s = ".applicant::text" then ["A", "B"]
      else if s = ".applicant-name::text" then ["B", "C"]
      else []
    xpath := fun _ => [] }

/-- Item with a publication number and no title anywhere. -/
def titlelessItem : ItemDoc :=
  { css := fun s => if s = ".publication-number::text" then ["WO123"] else []
    xpath := fun _ => [] }

/-- Page whose only result container holds `titlelessItem`. -/
def titlelessDoc : HtmlDoc :=
  { items := fun s => if s = ".result-item" then [titlelessItem] else []
    css := fun _ => []
    allTexts := [] }

/-- Page with no selector results and no text nodes at all. -/
def emptyDoc : HtmlDoc :=
  { items := fun _ => [], css := fun _ => [], allTexts := [] }

/-- Page whose count selector yields a text with two integers. -/
def countDoc : HtmlDoc :=
  { items := fun _ => []
    css := fun s => if s = ".total-results::text" then ["10 of 1,234 results"] else []
    allTexts := [] }

/-- A minimal parsed record used as a concrete search result. -/
def sampleResult : RawResult :=
  { publication_number := none, patent_id := some "X", title := none,
    abstract := none, applicants := [], inventors := [],
    publication_date := none, ipc_codes := [], url := none }

end PatentScope

namespace PatentScope

/-! ## Theorems -/

/-! ### Lemmas about stripping -/

/-- An element that does not satisfy the dropped predicate survives
`dropWhile`. -/
theorem mem_dropWhile_of_mem {c : Char} {l : List Char} {p : Char → Bool}
    (h : c ∈ l) (hp : p c = false) : c ∈ l.dropWhile p := by
  induction l with
  | nil => simp at h
  | cons a t ih =>
    rw [List.mem_cons] at h
    rw [List.dropWhile_cons]
    rcases h with rfl | h
    · simp [hp]
    · by_cases ha : p a
      · simp [ha, ih h]
      · simp [ha, h]

/-- Every character of the stripped string occurs in the original. -/
theorem mem_of_mem_pyStripList {c : Char} {l : List Char}
    (h : c ∈ pyStripList l) : c ∈ l := by
  unfold pyStripList at h
  rw [List.mem_reverse] at h
  have h1 := (List.dropWhile_sublist pyIsSpace).subset h
  rw [List.mem_reverse] at h1
  exact (List.dropWhile_sublist pyIsSpace).subset h1

/-- Every non-whitespace character of the original string survives
stripping. -/
theorem mem_pyStripList_of_mem {c : Char} {l : List Char}
    (h : c ∈ l) (hc : pyIsSpace c = false) : c ∈ pyStripList l := by
  unfold pyStripList
  rw [List.mem_reverse]
  apply mem_dropWhile_of_mem _ hc
  rw [List.mem_reverse]
  exact mem_dropWhile_of_mem h hc


/-! ### C1 — molecule classification -/

theorem strip_keeps_formula_test {s : String}
    (h : (s.data.filter (fun c => c ≠ ' ')).all
      (fun c => formulaAlphabet.contains c) = true) :
    isFormulaLike (pyStripList s.data) = true := by
  simp only [isFormulaLike, List.all_eq_true, List.mem_filter] at h ⊢
  intro c hc
  exact h c ⟨mem_of_mem_pyStripList hc.1, hc.2⟩

theorem smiles_char_facts {c : Char} (h : (c = '@' || c = '/' || c = '\\') = true) :
    pyIsSpace c = false ∧ c ≠ ' ' ∧ formulaAlphabet.contains c = false := by
  simp only [Bool.or_eq_true, decide_eq_true_eq] at h
  rcases h with (rfl | rfl) | rfl <;> exact ⟨by decide, by decide, by decide⟩

theorem formula_test_false_of_witness {l : List Char} {c : Char}
    (hmem : c ∈ l) (hne : c ≠ ' ') (hal : formulaAlphabet.contains c = false) :
    isFormulaLike l = false := by
  cases hb : isFormulaLike l with
  | false => rfl
  | true =>
    exfalso
    simp only [isFormulaLike, List.all_eq_true, List.mem_filter] at hb
    have := hb c ⟨hmem, by simpa using hne⟩
    rw [hal] at this
    exact Bool.false_ne_true this

theorem classify_smiles_of_char {s : String}
    (h : hasSmilesChar s.data = true) :
    classifyMolecule s = MolClass.Smiles := by
  simp only [hasSmilesChar, List.any_eq_true] at h
  obtain ⟨c, hc, hcs⟩ := h
  obtain ⟨hns, hne, hal⟩ := smiles_char_facts hcs
  have hmem : c ∈ pyStripList s.data := mem_pyStripList_of_mem hc hns
  have hform : isFormulaLike (pyStripList s.data) = false :=
    formula_test_false_of_witness hmem hne hal
  have hsm : hasSmilesChar (pyStripList s.data) = true := by
    simp only [hasSmilesChar, List.any_eq_true]
    exact ⟨c, hmem, hcs⟩
  simp [classifyMolecule, hform, hsm]

theorem classify_name_of_witness {s : String} {c : Char}
    (hmem : c ∈ pyStripList s.data) (hne : c ≠ ' ')
    (hal : formulaAlphabet.contains c = false)
    (hnosm : hasSmilesChar s.data = false) :
    classifyMolecule s = MolClass.Name := by
  have hform : isFormulaLike (pyStripList s.data) = false :=
    formula_test_false_of_witness hmem hne hal
  have hsm : hasSmilesChar (pyStripList s.data) = false := by
    cases hb : hasSmilesChar (pyStripList s.data) with
    | false => rfl
    | true =>
      exfalso
      simp only [hasSmilesChar, List.any_eq_true] at hb
      obtain ⟨d, hd, hds⟩ := hb
      have : hasSmilesChar s.data = true := by
        simp only [hasSmilesChar, List.any_eq_true]
        exact ⟨d, mem_of_mem_pyStripList hd, hds⟩
      rw [hnosm] at this
      exact Bool.false_ne_true this
  simp [classifyMolecule, hform, hsm]

/-- C1 (corrected claim is needed): the claim's third clause fails on the
input `"\tC6"`.  Its characters, ignoring spaces, are tab, `C`, `6`; the
tab is outside the formula alphabet and the input contains none of `@`,
`/`, `\`, so the claim classifies it as Name — but the code strips the
tab and classifies it as Formula. -/
theorem molecule_classification_counterexample :
    ("\tC6".data.filter (fun c => c ≠ ' ')).all
      (fun c => formulaAlphabet.contains c) = false ∧
    hasSmilesChar "\tC6".data = false ∧
    classifyMolecule "\tC6" = MolClass.Formula ∧
    MolClass.Formula ≠ MolClass.Name := by
  refine ⟨by decide, by decide, ?_, by decide⟩
  simp [classifyMolecule, isFormulaLike, pyStripList, pyIsSpace]
  decide

/-- C1 (amended): classification operates on the input after Python
`strip()`.  (1) If every character of the input, ignoring spaces, lies in
the formula alphabet, the input is classified Formula and the query is
the restricted-field quoted `EN_AB:("...")`.  (2) If the input fails the
alphabet test and contains one of `@`, `/`, `\`, it is classified Smiles,
with the same restricted-field quoted query.  (3) If the *stripped* input
still contains a non-space character outside the alphabet and the input
has no `@`, `/`, `\`, it is classified Name and the query is the
all-fields unquoted `EN_ALL:(...)`.  (4) `"glucose"` is classified
Name. -/
theorem molecule_classification :
    (∀ s : String,
      (s.data.filter (fun c => c ≠ ' ')).all
        (fun c => formulaAlphabet.contains c) = true →
      classifyMolecule s = MolClass.Formula ∧
      ∀ st, build_molecule_query s st = "EN_AB:(\"" ++ pyStrip s ++ "\")") ∧
    (∀ s : String,
      (s.data.filter (fun c => c ≠ ' ')).all
        (fun c => formulaAlphabet.contains c) = false →
      hasSmilesChar s.data = true →
      classifyMolecule s = MolClass.Smiles ∧
      ∀ st, build_molecule_query s st = "EN_AB:(\"" ++ pyStrip s ++ "\")") ∧
    (∀ s : String,
      (∃ c, c ∈ pyStripList s.data ∧ c ≠ ' ' ∧ formulaAlphabet.contains c = false) →
      hasSmilesChar s.data = false →
      classifyMolecule s = MolClass.Name ∧
      ∀ st, build_molecule_query s st = "EN_ALL:(" ++ pyStrip s ++ ")") ∧
    classifyMolecule "glucose" = MolClass.Name := by
  refine ⟨?_, ?_, ?_, ?_⟩
  · intro s h
    have hstrip := strip_keeps_formula_test h
    have hclass : classifyMolecule s = MolClass.Formula := by
      simp [classifyMolecule, hstrip]
    refine ⟨hclass, fun st => ?_⟩
    simp only [build_molecule_query, hclass]
    apply String.ext
    simp [String.data_append, pyStrip]
  · intro s _hfail hsm
    have hclass := classify_smiles_of_char hsm
    refine ⟨hclass, fun st => ?_⟩
    simp only [build_molecule_query, hclass]
    apply String.ext
    simp [String.data_append, pyStrip]
  · intro s hw hnosm
    obtain ⟨c, hmem, hne, hal⟩ := hw
    have hclass := classify_name_of_witness hmem hne hal hnosm
    refine ⟨hclass, fun st => ?_⟩
    simp only [build_molecule_query, hclass]
    apply String.ext
    simp [String.data_append, pyStrip]
  · have : classifyMolecule "glucose" = MolClass.Name := by
      simp [classifyMolecule, isFormulaLike, hasSmilesChar, pyStripList, pyIsSpace]
      decide
    exact this

/-- Witness for the amended C1 theorem at concrete inputs: `"C6H12O6"`
is Formula with a quoted `EN_AB` query, `"C/C=C"` is Smiles, `"glucose"`
is Name with an unquoted `EN_ALL` query. -/
theorem molecule_classification_witness :
    classifyMolecule "C6H12O6" = MolClass.Formula ∧
    build_molecule_query "C6H12O6" "exact" = "EN_AB:(\"" ++ pyStrip "C6H12O6" ++ "\")" ∧
    classifyMolecule "C/C=C" = MolClass.Smiles ∧
    classifyMolecule "glucose" = MolClass.Name ∧
    build_molecule_query "glucose" "exact" = "EN_ALL:(" ++ pyStrip "glucose" ++ ")" := by
  have h1 := molecule_classification.1 "C6H12O6" (by decide)
  have h2 := molecule_classification.2.1 "C/C=C" (by decide) (by decide)
  have h3 := molecule_classification.2.2.1 "glucose"
    ⟨'g', by decide, by decide, by decide⟩ (by decide)
  exact ⟨h1.1, h1.2 "exact", h2.1, h3.1, h3.2 "exact"⟩


/-! ### C2 — fetch with retry -/

/-- C2: with `max_retries = 3` and successive statuses `[500, 500, 200]`,
`_fetch_with_retry` succeeds with the body of the third response and the
tenacity-wrapped `_make_request` on the same statuses calls
`record_success` exactly once; with statuses `[500, 500, 500]` the loop
completes and both fail with their retries-exhausted exception
(`Falha ao buscar ...` there, tenacity retry error here), and
`record_success` is never called. -/
theorem fetch_retry_sequence (b1 b2 b3 : String) (rl : RateLimiter) :
    fetch_with_retry
      (fun i => if i = 0 then .response 500 b1
                else if i = 1 then .response 500 b2
                else .response 200 b3) 3 = .ok b3 ∧
    (make_request
      (fun i => if i = 0 then .response 500 b1
                else if i = 1 then .response 500 b2
                else .response 200 b3) rl).2.successCalls = 1 ∧
    fetch_with_retry
      (fun i => if i = 0 then .response 500 b1
                else if i = 1 then .response 500 b2
                else .response 500 b3) 3 = .retriesExhausted ∧
    (make_request
      (fun i => if i = 0 then .response 500 b1
                else if i = 1 then .response 500 b2
                else .response 500 b3) rl).1 = none ∧
    (make_request
      (fun i => if i = 0 then .response 500 b1
                else if i = 1 then .response 500 b2
                else .response 500 b3) rl).2.successCalls = 0 := by
  refine ⟨rfl, rfl, rfl, rfl, rfl⟩

/-! ### C3 — adaptive rate limiter -/

/-- C3: for an adaptive rate limiter with `0 ≤ minDelay ≤ maxDelay`, the
delay computed by `wait()` is `min(minDelay * 2^consecutiveErrors,
maxDelay)` when `consecutiveErrors > 0` and
`max(minDelay, maxDelay / (1 + successStreak * 0.1))` otherwise; from a
fresh limiter, three `record_error` calls give delay
`min(minDelay * 8, maxDelay)`; any `record_success` resets
`consecutive_errors` to 0. -/
theorem rate_limiter_adaptive_delay (rl : RateLimiter) (r : ℚ)
    (had : rl.adaptive = true) (h0 : 0 ≤ rl.min_delay)
    (hle : rl.min_delay ≤ rl.max_delay) :
    (rl.consecutive_errors > 0 →
      rl.computeDelay r = min (rl.min_delay * 2 ^ rl.consecutive_errors) rl.max_delay) ∧
    (rl.consecutive_errors = 0 →
      rl.computeDelay r =
        max rl.min_delay (rl.max_delay / (1 + (rl.success_streak : ℚ) * (1 / 10)))) ∧
    (∀ minD maxD : ℚ,
      (((RateLimiter.init minD maxD true).record_error.record_error.record_error).computeDelay r)
        = min (minD * 8) maxD) ∧
    rl.record_success.consecutive_errors = 0 := by
  refine ⟨?_, ?_, ?_, rfl⟩
  · intro h
    simp [RateLimiter.computeDelay, had, h]
  · intro h
    simp [RateLimiter.computeDelay, had, h]
  · intro minD maxD
    show min (minD * 2 ^ 3) maxD = min (minD * 8) maxD
    norm_num

/-- Witness for the C3 theorem at `minDelay = 1`, `maxDelay = 3`,
`random sample = 2`, on a fresh limiter. -/
theorem rate_limiter_adaptive_delay_witness :
    (RateLimiter.init 1 3 true).computeDelay 2
      = max (1 : ℚ) (3 / (1 + (0 : ℚ) * (1 / 10))) ∧
    (((RateLimiter.init 1 3 true).record_error.record_error.record_error).computeDelay 2)
      = min ((1 : ℚ) * 8) 3 ∧
    (RateLimiter.init 1 3 true).record_success.consecutive_errors = 0 := by
  have h := rate_limiter_adaptive_delay (RateLimiter.init 1 3 true) 2 rfl
    (by norm_num [RateLimiter.init]) (by norm_num [RateLimiter.init])
  exact ⟨h.2.1 rfl, h.2.2.1 1 3, h.2.2.2⟩


/-! ### C4 — field extraction cascades -/

theorem cleanList_eq_self {l : List String}
    (h : ∀ a ∈ l, pyStrip a = a ∧ a ≠ "") : cleanList l = l := by
  induction l with
  | nil => rfl
  | cons a t ih =>
    have ha := h a (List.mem_cons_self a t)
    have ht := fun b hb => h b (List.mem_cons_of_mem a hb)
    have ih2 := ih ht
    simp only [cleanList, ne_eq, decide_not] at ih2 ⊢
    simp only [List.map_cons, List.filter_cons, ha.1]
    simp [ha.2, ih2]

/-- C4 (corrected claim is needed): on an item where the two applicant
selector classes both yield `"Acme"`, the extracted applicant list is
`["Acme", "Acme"]` — the cascade concatenates and keeps the duplicate,
so it differs from the claimed duplicate-free union `["Acme"]`. -/
theorem field_cascade_counterexample :
    (buildResult dupApplicantItem).applicants = ["Acme", "Acme"] ∧
    (["Acme", "Acme"] : List String) ≠ ["Acme"] := by
  exact ⟨rfl, by decide⟩

/-- C4 (amended): singular fields are resolved by an ordered cascade in
which the first truthy result wins — with only the second of two title
selectors matching, the title is that selector's text — while each
multi-valued field is the order-preserving *concatenation* of every
selector's results in cascade order (stripped, empties removed,
duplicates retained). -/
theorem field_cascade (item : ItemDoc) (t : String) (xs ys : List String)
    (ht1 : item.css ".title::text" = [])
    (ht2 : item.css "h3::text" = [t])
    (htt : t ≠ "") (hts : pyStrip t = t)
    (ha1 : item.css ".applicant::text" = xs)
    (ha2 : item.css ".applicant-name::text" = ys)
    (ha3 : item.css "div[class*=\"applicant\"]::text" = [])
    (ha4 : item.css "td.applicant::text" = [])
    (hclean : ∀ a ∈ xs ++ ys, pyStrip a = a ∧ a ≠ "") :
    (buildResult item).title = some t ∧
    (buildResult item).applicants = xs ++ ys := by
  constructor
  · simp only [buildResult]
    simp [firstTruthy, title_selectors, ht1, ht2, htt, hts]
  · simp only [buildResult]
    simp only [gatherAll, applicant_selectors, List.foldl_cons, List.foldl_nil,
      ha1, ha2, ha3, ha4, List.nil_append, List.append_nil]
    exact cleanList_eq_self hclean

/-- Witness for the amended C4 theorem on `twoClassItem`: the title comes
from the second selector and the applicant lists of the two classes are
concatenated, keeping the shared `"B"` twice. -/
theorem field_cascade_witness :
    (buildResult twoClassItem).title = some "Novel Compound" ∧
    (buildResult twoClassItem).applicants = ["A", "B"] ++ ["B", "C"] :=
  field_cascade twoClassItem "Novel Compound" ["A", "B"] ["B", "C"]
    rfl rfl (by decide) (by decide) rfl rfl rfl rfl (by decide)

/-! ### C5 — pagination crawl -/

theorem crawlPagesLoop_step (pages : ℕ → List PatRec) (hN : ℕ → Bool)
    (lim maxp fuel : ℕ) (acc : List PatRec) (pag : ℕ) :
    crawlPagesLoop pages hN lim maxp (fuel + 1) acc pag =
      if acc.length < lim ∧ pag < maxp then
        if hN pag then
          if (pages (pag + 1)).length = 0 then acc
          else crawlPagesLoop pages hN lim maxp fuel (acc ++ pages (pag + 1)) (pag + 1)
        else acc
      else acc := rfl

/-- C5: with limit 25 and every page yielding exactly 10 records, the
crawl consumes pages 1, 2 and 3 only, and the accumulated list is
truncated to exactly 25 records before return. -/
theorem crawl_limit (pages : ℕ → List PatRec) (hN : ℕ → Bool)
    (h1 : (pages 1).length = 10) (h2 : (pages 2).length = 10)
    (h3 : (pages 3).length = 10)
    (hn1 : hN 1 = true) (hn2 : hN 2 = true) :
    buscar_com_selenium pages hN 25 = (pages 1 ++ pages 2) ++ (pages 3).take 5 ∧
    (buscar_com_selenium pages hN 25).length = 25 := by
  have hloop : crawlPagesLoop pages hN 25 10 10 (pages 1) 1
      = (pages 1 ++ pages 2) ++ pages 3 := by
    rw [show (10:ℕ) = 9 + 1 from rfl, crawlPagesLoop_step]
    rw [if_pos (by rw [h1]; omega), if_pos hn1, if_neg (by rw [h2]; omega)]
    rw [show (9:ℕ) = 8 + 1 from rfl, crawlPagesLoop_step]
    rw [if_pos (by simp [h1, h2]), if_pos hn2, if_neg (by rw [h3]; omega)]
    rw [show (8:ℕ) = 7 + 1 from rfl, crawlPagesLoop_step]
    rw [if_neg (by simp [h1, h2, h3])]
  have hres : buscar_com_selenium pages hN 25
      = (pages 1 ++ pages 2) ++ (pages 3).take 5 := by
    rw [buscar_com_selenium, hloop]
    rw [List.take_append_eq_append_take]
    rw [List.take_of_length_le (by simp [h1, h2])]
    congr 1
    simp [h1, h2]
  refine ⟨hres, ?_⟩
  rw [hres]
  simp [h1, h2, h3]

/-- Witness for the C5 theorem: three identical pages of ten records
crawled with limit 25 return exactly 25 records. -/
theorem crawl_limit_witness :
    (buscar_com_selenium (fun _ => List.replicate 10 ⟨"WO", "t"⟩)
      (fun _ => true) 25).length = 25 :=
  (crawl_limit (fun _ => List.replicate 10 ⟨"WO", "t"⟩) (fun _ => true)
    (by simp) (by simp) (by simp) rfl rfl).2


/-! ### C6 — deduplication -/

/-- C6 (corrected claim is needed): `agrupar_por_publication_number` on
two records sharing `publicationNumber = "WO2023123456A1"` keeps the
*second* record's values — dictionary assignment overwrites — so the
claimed first-occurrence-wins policy fails there. -/
theorem dedupe_counterexample :
    agrupar_por_publication_number
      [⟨"WO2023123456A1", "first"⟩, ⟨"WO2023123456A1", "second"⟩]
      = [("WO2023123456A1", ⟨"WO2023123456A1", "second"⟩)] ∧
    (PatRec.mk "WO2023123456A1" "second") ≠ (PatRec.mk "WO2023123456A1" "first") := by
  exact ⟨rfl, by decide⟩

/-- C6 (amended): deduplication keyed by `publicationNumber` keeps the
first occurrence in the search pipeline (`busca_completa`), dropping the
later duplicate, while `agrupar_por_publication_number` keeps the
last-encountered record under the first-seen key. -/
theorem dedupe_policies (r1 r2 : PatRec)
    (heq : r2.publicationNumber = r1.publicationNumber)
    (hne : r1.publicationNumber ≠ "") :
    dedupe_busca_completa [r1, r2] = [r1] ∧
    agrupar_por_publication_number [r1, r2] = [(r1.publicationNumber, r2)] := by
  have hne2 : r2.publicationNumber ≠ "" := by rw [heq]; exact hne
  constructor
  · simp [dedupe_busca_completa, uniqueInsert, heq, hne]
  · simp [agrupar_por_publication_number, dictSet, heq, hne, hne2]

/-- Witness for the amended C6 theorem on two concrete records sharing
key `"WO1"`. -/
theorem dedupe_policies_witness :
    dedupe_busca_completa [⟨"WO1", "a"⟩, ⟨"WO1", "b"⟩] = [⟨"WO1", "a"⟩] ∧
    agrupar_por_publication_number [⟨"WO1", "a"⟩, ⟨"WO1", "b"⟩]
      = [("WO1", ⟨"WO1", "b"⟩)] :=
  dedupe_policies ⟨"WO1", "a"⟩ ⟨"WO1", "b"⟩ rfl (by decide)

/-! ### C7 — total-count extraction -/

theorem foldl_max_mem (l : List ℕ) (a : ℕ) :
    l.foldl max a = a ∨ l.foldl max a ∈ l := by
  induction l generalizing a with
  | nil => left; rfl
  | cons x t ih =>
    rw [List.foldl_cons]
    rcases ih (max a x) with h | h
    · rcases max_choice a x with hm | hm
      · left; rw [h, hm]
      · right; rw [h, hm]; exact List.mem_cons_self x t
    · right; exact List.mem_cons_of_mem x h

theorem le_foldl_max_init (l : List ℕ) (a : ℕ) : a ≤ l.foldl max a := by
  induction l generalizing a with
  | nil => exact le_refl a
  | cons x t ih =>
    rw [List.foldl_cons]
    exact le_trans (le_max_left a x) (ih (max a x))

theorem le_foldl_max_of_mem {l : List ℕ} {x : ℕ} (a : ℕ) (h : x ∈ l) :
    x ≤ l.foldl max a := by
  induction l generalizing a with
  | nil => simp at h
  | cons y t ih =>
    rw [List.foldl_cons]
    rcases List.mem_cons.mp h with rfl | h2
    · exact le_trans (le_max_right a x) (le_foldl_max_init t (max a x))
    · exact ih (max a y) h2

theorem listMax_mem {l : List ℕ} (h : ¬l = []) : listMax l ∈ l := by
  rcases foldl_max_mem l 0 with h0 | hm
  · cases l with
    | nil => exact absurd rfl h
    | cons x t =>
      have hx : x ≤ (x :: t).foldl max 0 :=
        le_foldl_max_of_mem 0 (List.mem_cons_self x t)
      have hx0 : x = 0 := le_antisymm (h0 ▸ hx) (Nat.zero_le x)
      show (x :: t).foldl max 0 ∈ x :: t
      rw [h0, hx0]
      exact List.mem_cons_self 0 t
  · exact hm

/-- C7 (corrected claim is needed): on a document with no candidate
count anywhere, `extract_total_results` returns the integer `0` — the
`return 0` of parser.py line 230 — not an absent value. -/
theorem total_count_counterexample : extract_total_results emptyDoc = 0 := rfl

/-- C7 (amended): when the count selector matches a text with at least
one integer substring, the result is the maximum integer parsed from it
(thousands separators accepted), which is one of the parsed candidates
and an upper bound of them all; when no candidate exists the function
returns 0, and the caller replaces a 0 total by the number of parsed
results whenever that list is non-empty. -/
theorem total_count_max (d : HtmlDoc) (t : String)
    (hsel : d.css ".total-results::text" = [t])
    (hruns : ¬(parsedNumbers t).isEmpty = true) :
    extract_total_results d = listMax (parsedNumbers t) ∧
    listMax (parsedNumbers t) ∈ parsedNumbers t ∧
    (∀ x ∈ parsedNumbers t, x ≤ listMax (parsedNumbers t)) ∧
    (∀ (run : SearchParams → Except String (List RawResult × ℕ))
       (molecule st : String) (page psz : ℤ) (results : List RawResult),
       run (buildSearchParams molecule st page psz) = .ok (results, 0) →
       ¬results.isEmpty = true →
       (search_by_molecule run molecule st page psz).total_results
         = results.length) := by
  have hne : parsedNumbers t ≠ [] := by
    intro hh
    rw [hh] at hruns
    exact hruns rfl
  have ht : t ≠ "" := by
    intro hh
    rw [hh] at hne
    exact hne rfl
  refine ⟨?_, listMax_mem hne, ?_, ?_⟩
  · simp [extract_total_results, totalFromSelectors, total_selectors, hsel,
      truthyOpt, ht, extractNumbersMax, hruns]
  · intro x hx
    exact le_foldl_max_of_mem 0 hx
  · intro run molecule st page psz results hrun hres
    simp [search_by_molecule, hrun, hres]

/-- Witness for the amended C7 theorem: the count text
`"10 of 1,234 results"` yields the maximum 1234, and a zero extracted
total with one parsed result is reported as total 1 by the caller. -/
theorem total_count_max_witness :
    extract_total_results countDoc = listMax (parsedNumbers "10 of 1,234 results") ∧
    (search_by_molecule (fun _ => Except.ok ([sampleResult], 0))
      "glucose" "exact" 1 10).total_results = 1 := by
  have h := total_count_max countDoc "10 of 1,234 results" rfl (by decide)
  have h2 := h.2.2.2 (fun _ => Except.ok ([sampleResult], 0))
    "glucose" "exact" 1 10 [sampleResult] rfl (by decide)
  exact ⟨h.1, by rw [h2]; rfl⟩

/-! ### C8 — record retention invariant -/

/-- C8 (corrected claim is needed): a result item carrying only a
publication number and no title is retained — the returned record has
`title = none`, so the claimed non-empty-title invariant fails. -/
theorem record_invariant_counterexample :
    (parse_search_results titlelessDoc).map RawResult.title = [none] ∧
    (parse_search_results titlelessDoc).length = 1 := by
  exact ⟨rfl, rfl⟩

/-- C8 (amended): every record returned by `parse_search_results` has a
truthy `patent_id` or a truthy `publication_number` (records lacking
both are silently dropped, no error is reported), and whenever no
identifier is extracted from a detail link the `patent_id` equals the
`publication_number`; no non-empty-title requirement is imposed. -/
theorem record_invariant (d : HtmlDoc) (item : ItemDoc) :
    (∀ r ∈ parse_search_results d,
      truthyStr r.patent_id = true ∨ truthyStr r.publication_number = true) ∧
    ((∀ h, truthyOpt ((item.css "a[href*=\"docId\"]::attr(href)").head?) = some h →
        searchDocId h.data = none) →
      (buildResult item).patent_id = (buildResult item).publication_number) := by
  constructor
  · intro r hr
    have hret := (List.mem_filter.mp hr).2
    rw [retainRecord] at hret
    exact Bool.or_eq_true _ _ |>.mp hret
  · intro hno
    simp only [buildResult]
    cases hh : truthyOpt ((item.css "a[href*=\"docId\"]::attr(href)").head?) with
    | none => simp [hh]
    | some h => simp [hh, hno h hh]

/-- Witness for the amended C8 theorem on the titleless document: its
single retained record has a truthy identifier, and on its item the
`patent_id` defaults to the publication number. -/
theorem record_invariant_witness :
    (truthyStr (RawResult.patent_id
        { publication_number := some "WO123", patent_id := some "WO123",
          title := none, abstract := none, applicants := [], inventors := [],
          publication_date := none, ipc_codes := [], url := none }) = true ∨
     truthyStr (RawResult.publication_number
        { publication_number := some "WO123", patent_id := some "WO123",
          title := none, abstract := none, applicants := [], inventors := [],
          publication_date := none, ipc_codes := [], url := none }) = true) ∧
    (buildResult titlelessItem).patent_id = (buildResult titlelessItem).publication_number := by
  refine ⟨(record_invariant titlelessDoc titlelessItem).1 _ (by decide),
    (record_invariant titlelessDoc titlelessItem).2 ?_⟩
  intro h hh
  simp [titlelessItem, truthyOpt] at hh

/-! ### C9 — structured error payload -/

/-- C9: any exception raised while fetching or extracting inside
`search_by_molecule` is not propagated: the result is the structured
error payload with status `"error"`, no records, zero totals, cleared
pagination flags and the originally requested page and page size. -/
theorem search_error_payload
    (run : SearchParams → Except String (List RawResult × ℕ))
    (molecule st : String) (page psz : ℤ) (e : String)
    (h : run (buildSearchParams molecule st page psz) = .error e) :
    search_by_molecule run molecule st page psz =
      { status := "error", error := some e, results := [], total_results := 0,
        page := page, page_size := psz, total_pages := 0, has_next := false,
        has_previous := false, next_page := none, previous_page := none,
        query := molecule, search_type := st } := by
  simp [search_by_molecule, h]

/-- Witness for the C9 theorem: a run that always raises yields the
error payload for `"glucose"`, page 2, page size 10. -/
theorem search_error_payload_witness :
    search_by_molecule (fun _ => .error "boom") "glucose" "exact" 2 10 =
      { status := "error", error := some "boom", results := [], total_results := 0,
        page := 2, page_size := 10, total_pages := 0, has_next := false,
        has_previous := false, next_page := none, previous_page := none,
        query := "glucose", search_type := "exact" } :=
  search_error_payload (fun _ => .error "boom") "glucose" "exact" 2 10 "boom" rfl

/-! ### C10 — search-type noninterference -/

/-- C10: the constructed query, the full request parameters, and the
whole response up to the echoed `search_type` field are identical for
any two `search_type` values — `search_type` never influences the
request sent. -/
theorem search_type_noninterference
    (run : SearchParams → Except String (List RawResult × ℕ))
    (molecule st1 st2 : String) (page psz : ℤ) :
    build_molecule_query molecule st1 = build_molecule_query molecule st2 ∧
    buildSearchParams molecule st1 page psz = buildSearchParams molecule st2 page psz ∧
    search_by_molecule run molecule st1 page psz =
      { search_by_molecule run molecule st2 page psz with search_type := st1 } := by
  refine ⟨rfl, rfl, ?_⟩
  have hp : buildSearchParams molecule st1 page psz
      = buildSearchParams molecule st2 page psz := rfl
  rw [search_by_molecule, search_by_molecule, hp]
  cases hrun : run (buildSearchParams molecule st2 page psz) with
  | ok v => rcases v with ⟨results, total0⟩; simp
  | error e => simp

end PatentScope
